import Mathlib

/-!
Shallow embedding of the Firefox Affiliates excerpts:

* `src/apps/users/models.py` — registration / activation workflow
  (`RegisterManager.create_profile`, `activate_profile`, `get_by_key`,
  `_send_email`, models `RegisterProfile`, `UserProfile`, Django `User`).
* `src/apps/facebook/tasks.py` — background tasks `add_click` and
  `generate_banner_instance_image`.

The relational store is modelled as lists of rows; Django's `Manager.get`
raises `DoesNotExist` / `MultipleObjectsReturned`, which we model with
`Except`.  Effects (randomness, SHA-1/HMAC digests, password hashing, mail
sending, HTTP fetch, image decoding, the clock) are environment parameters:
the digests are uninterpreted functions into 160-bit numbers, and
`hexdigest` is embedded concretely since the claims depend on its shape.
-/

set_option autoImplicit false

namespace Affiliates

/-! ### Hex digests

`hashlib.sha1(...).hexdigest()` and `hmac.new(...).hexdigest()` render a
20-byte digest as 40 lowercase hex characters.  We model a digest as a
natural number (only its low 160 bits are rendered) and embed the hex
rendering. -/

/-- Lowercase hex character for a digit value below 16 (as Python's
`hexdigest` produces). -/
def hexChar (n : Nat) : Char :=
  if n < 10 then Char.ofNat (48 + n) else Char.ofNat (87 + n)

/-- `hexdigest d` is the 40-character lowercase hex rendering of the
low 160 bits of `d`, most significant digit first, zero padded — exactly
the shape of `hashlib.sha1(...).hexdigest()` output. -/
def hexdigest (d : Nat) : String :=
  ⟨(List.range 40).map fun i => hexChar (d / 16 ^ (39 - i) % 16)⟩

/-- One character of the class `[a-f0-9]` from `SHA1_RE`. -/
def isLowerHexChar (c : Char) : Bool :=
  (Char.ofNat 48 ≤ c && c ≤ Char.ofNat 57) ||
    (Char.ofNat 97 ≤ c && c ≤ Char.ofNat 102)

/-- Embeds `SHA1_RE = re.compile('^[a-f0-9]{40}$')` matching. -/
def sha1Match (s : String) : Bool :=
  s.length == 40 && s.data.all isLowerHexChar

/-! ### The relational store primitives -/

/-- Outcome of Django's `Manager.get(...)` when it does not return a row. -/
inductive DBErr where
  | doesNotExist
  | multipleObjectsReturned
deriving Repr, DecidableEq

/-- Django `Manager.get(**kwargs)` over a list of rows: the unique row
satisfying the predicate, `DoesNotExist` if there is none,
`MultipleObjectsReturned` if there are several. -/
def dbGet {α : Type} (l : List α) (p : α → Bool) : Except DBErr α :=
  match l.filter p with
  | [] => .error .doesNotExist
  | [x] => .ok x
  | _ :: _ :: _ => .error .multipleObjectsReturned

/-! ### Users app data model (`src/apps/users/models.py`)

Only the fields the excerpt reads or writes are embedded.  `RegisterProfile`
also has a nullable `user` link, never assigned in the excerpt, and
`UserProfile` has blank optional address fields, never assigned at
activation; they are omitted. -/

/-- Row of `RegisterProfile`: pending registration (`email` is unique at the
database level; `password` stores the hashed password set by
`set_password`). -/
structure RegisterProfile where
  email : String
  display_name : String
  activation_key : String
  password : String
deriving Repr, DecidableEq

/-- Row of `django.contrib.auth.models.User` (the fields `activate_profile`
assigns). -/
structure User where
  username : String
  email : String
  password : String
  is_active : Bool
deriving Repr, DecidableEq

/-- Row of `UserProfile` (the fields `activate_profile` assigns; the 1:1
`user` link is stored by value). -/
structure UserProfile where
  user : User
  display_name : String
deriving Repr, DecidableEq

/-- The users-app portion of the relational store. -/
structure UsersStore where
  regProfiles : List RegisterProfile
  users : List User
  userProfiles : List UserProfile
deriving Repr, DecidableEq

/-- Environment of effects used by `RegisterManager`: `sha1` and `hmacSha1`
are the uninterpreted 160-bit digests of `hashlib.sha1` and
`hmac.new(salt, email, hashlib.sha1)`; `hash_password` is
`users.utils.hash_password` (not in the excerpt, uninterpreted); `rand` is
`str(random.random())`; `mailOk` is whether `django.core.mail.send_mail`
succeeds. -/
structure RegEnv where
  sha1 : String → Nat
  hmacSha1 : String → String → Nat
  hash_password : String → String
  rand : String
  mailOk : Bool

/-- Exceptions `create_profile` can let escape: `MultipleObjectsReturned`
from `get_or_create`'s lookup, or a mail-send failure from `_send_email`
(not handled locally). -/
inductive CreateErr where
  | multipleObjectsReturned
  | mailFailure
deriving Repr, DecidableEq

/-- The activation key computed in `create_profile`:
`salt = hashlib.sha1(str(random.random())).hexdigest()[:5]`,
`activation_key = hmac.new(salt, email, hashlib.sha1).hexdigest()`. -/
def activationKeyOf (env : RegEnv) (email : String) : String :=
  let salt := (hexdigest (env.sha1 env.rand)).take 5
  hexdigest (env.hmacSha1 salt email)

/-- `RegisterManager.create_profile(display_name, email, password)`.

`RegisterProfile.objects.get_or_create(email=email)` finds the existing row
for `email` or inserts a fresh one; the code then assigns `display_name`,
`activation_key` and the hashed password and saves, then sends the
activation email.  The returned store reflects all writes performed before
`_send_email`, so a mail failure (`.error .mailFailure`) leaves the saved
profile in place. -/
def create_profile (env : RegEnv) (display_name email password : String)
    (s : UsersStore) : UsersStore × Except CreateErr RegisterProfile :=
  let activation_key := activationKeyOf env email
  match dbGet s.regProfiles (fun p => p.email == email) with
  | .error .multipleObjectsReturned => (s, .error .multipleObjectsReturned)
  | .error .doesNotExist =>
    let prof : RegisterProfile :=
      { email := email, display_name := display_name,
        activation_key := activation_key,
        password := env.hash_password password }
    let s1 := { s with regProfiles := s.regProfiles ++ [prof] }
    (s1, if env.mailOk then .ok prof else .error .mailFailure)
  | .ok p0 =>
    let prof : RegisterProfile :=
      { p0 with display_name := display_name,
                activation_key := activation_key,
                password := env.hash_password password }
    let s1 := { s with regProfiles :=
      s.regProfiles.map fun q => if q.email == email then prof else q }
    (s1, if env.mailOk then .ok prof else .error .mailFailure)

/-- `RegisterManager.get_by_key(key)`: checks `SHA1_RE` before hitting the
store, then `self.get(activation_key=key)`, catching only `DoesNotExist`. -/
def get_by_key (key : String) (s : UsersStore) :
    Except DBErr (Option RegisterProfile) :=
  if sha1Match key then
    match dbGet s.regProfiles (fun p => p.activation_key == key) with
    | .ok p => .ok (some p)
    | .error .doesNotExist => .ok none
    | .error .multipleObjectsReturned => .error .multipleObjectsReturned
  else
    .ok none

/-- The synthetic username `hashlib.sha1(reg_profile.email).hexdigest()[:30]`. -/
def mkUsername (env : RegEnv) (email : String) : String :=
  (hexdigest (env.sha1 email)).take 30

/-- The `User` row `activate_profile` builds from a fetched
`RegisterProfile`. -/
def activatedUser (env : RegEnv) (rp : RegisterProfile) : User :=
  { username := mkUsername env rp.email, email := rp.email,
    password := rp.password, is_active := true }

/-- The `RegisterProfile` row as `create_profile` leaves it saved: signup
email, display name, the freshly derived activation key and the hashed
password. -/
def newRegProfile (env : RegEnv) (display_name email password : String) :
    RegisterProfile :=
  { email := email, display_name := display_name,
    activation_key := activationKeyOf env email,
    password := env.hash_password password }

/-- `RegisterManager.activate_profile(key)`: on a valid key, creates the
`User` and the `UserProfile` and deletes the fetched `RegisterProfile`
(its unique `activation_key` match); on an invalid key returns `none`.
The `post_save` permission grant touches no row modelled here. -/
def activate_profile (env : RegEnv) (key : String) (s : UsersStore) :
    Except DBErr (Option User × UsersStore) :=
  match get_by_key key s with
  | .error e => .error e
  | .ok none => .ok (none, s)
  | .ok (some rp) =>
    let user := activatedUser env rp
    .ok (some user,
      { regProfiles := s.regProfiles.filter fun p => !(p.activation_key == key),
        users := s.users ++ [user],
        userProfiles := s.userProfiles ++ [⟨user, rp.display_name⟩] })

/-! ### Facebook app (`src/apps/facebook/tasks.py`)

`facebook/models.py`, `facebook/utils.py` and `shared/utils.py` are not in
the excerpt.  Modelled from the spec: `FacebookBannerInstance` carries a
banner-template reference, a linked-user reference, a `total_clicks`
counter and the generated composite image (§3); `FacebookClickStats` is an
hourly bucket with a `clicks` counter created lazily (so it starts at 0 and
a freshly created bucket is incremented to 1, §4.3); `current_hour` is the
clock truncated to the hour, passed in as a parameter; `get_object_or_none`
returns the object or `None` when absent. -/

/-- Image bytes (HTTP response bodies and stored image files). -/
abbrev Bytes := List Nat

/-- Exceptions of the imaging library (PIL): the task's `except ValueError`
clause distinguishes `ValueError` from every other exception class, of
which `IOError` — PIL's documented signal for unidentifiable or truncated
image data — is the representative. -/
inductive PILErr where
  | valueError (msg : String)
  | ioError (msg : String)
deriving Repr, DecidableEq

/-- A decoded PIL image: dimensions plus a pixel map (colors as numbers;
pixels outside the canvas are carried by the map but never observed). -/
structure PILImage where
  width : Nat
  height : Nat
  px : Int → Int → Nat

/-- `Image.copy()`: an independent image with the same contents. -/
def PILImage.copy (im : PILImage) : PILImage := im

/-- `ImageDraw.Draw(im).rectangle((x0, y0, x1, y1), fill=c)`: fills the
rectangle including both corner pixels (PIL's rectangle is inclusive of
the lower-right coordinate). -/
def rectangle (im : PILImage) (x0 y0 x1 y1 : Int) (fill : Nat) : PILImage :=
  { im with
    px := fun a b =>
      if x0 ≤ a ∧ a ≤ x1 ∧ y0 ≤ b ∧ b ≤ y1 then fill else im.px a b }

/-- `base.paste(im, (x, y))`: overwrites the `im.width × im.height` region
with `im`'s pixels, no blending or resizing. -/
def paste (base im : PILImage) (x y : Int) : PILImage :=
  { base with
    px := fun a b =>
      if x ≤ a ∧ a < x + im.width ∧ y ≤ b ∧ b < y + im.height then
        im.px (a - x) (b - y)
      else
        base.px a b }

/-- File format of a stored image file. -/
inductive ImageFormat where
  | png
deriving Repr, DecidableEq

/-- An image file saved to a model's image field (the composite is saved
as PNG under the name `custom_image.png`). -/
structure StoredImage where
  name : String
  format : ImageFormat
  image : PILImage

/-- Row of `FacebookBannerInstance` (modelled from the spec, see above):
`banner_image_file` stands for `banner.image`, `user_id`/`picture_url` for
`user.id`/`user.picture_url`. -/
structure FacebookBannerInstance where
  id : Nat
  user_id : Nat
  picture_url : String
  banner_image_file : Bytes
  total_clicks : Nat
  custom_image : Option StoredImage

/-- Row of `FacebookClickStats` (modelled from the spec): one `(hour,
banner_instance)` bucket with a `clicks` counter defaulting to 0. -/
structure FacebookClickStats where
  hour : Nat
  banner_instance_id : Nat
  clicks : Nat
deriving Repr, DecidableEq

/-- The facebook-app portion of the relational store. -/
structure FBStore where
  instances : List FacebookBannerInstance
  stats : List FacebookClickStats

/-- `shared.utils.get_object_or_none` (modelled from the spec: the object,
or `None` when absent): `get`, with `DoesNotExist` turned into `None`. -/
def get_object_or_none {α : Type} (l : List α) (p : α → Bool) :
    Except DBErr (Option α) :=
  match dbGet l p with
  | .ok x => .ok (some x)
  | .error .doesNotExist => .ok none
  | .error .multipleObjectsReturned => .error .multipleObjectsReturned

/-- Saving a `FacebookBannerInstance` updates its row in place (rows are
keyed by the primary key `id`). -/
def saveInstance (l : List FacebookBannerInstance)
    (b : FacebookBannerInstance) : List FacebookBannerInstance :=
  l.map fun x => if x.id == b.id then b else x

/-- Membership of a stats row in the `(hour, banner_instance)` bucket. -/
def statsKey (hour iid : Nat) (st : FacebookClickStats) : Bool :=
  st.hour == hour && st.banner_instance_id == iid

/-- `FacebookClickStats.objects.get_or_create(hour=..., banner_instance=...)`:
the existing bucket row, or a fresh row (clicks defaulting to 0) inserted. -/
def statsGetOrCreate (l : List FacebookClickStats) (hour iid : Nat) :
    Except DBErr (FacebookClickStats × List FacebookClickStats) :=
  match dbGet l (statsKey hour iid) with
  | .ok st => .ok (st, l)
  | .error .doesNotExist =>
    let st : FacebookClickStats := ⟨hour, iid, 0⟩
    .ok (st, l ++ [st])
  | .error .multipleObjectsReturned => .error .multipleObjectsReturned

/-- Saving a `FacebookClickStats` row updates its bucket row in place. -/
def saveStats (l : List FacebookClickStats) (st : FacebookClickStats) :
    List FacebookClickStats :=
  l.map fun x => if statsKey st.hour st.banner_instance_id x then st else x

/-- The task `add_click(banner_instance_id)`, with `current_hour()` passed
as `hour`: looks the instance up (no-op when absent), bumps
`total_clicks`, then bumps (or creates) the current hour's stats bucket. -/
def add_click (hour : Nat) (iid : Nat) (s : FBStore) : Except DBErr FBStore :=
  match get_object_or_none s.instances (fun b => b.id == iid) with
  | .error e => .error e
  | .ok none => .ok s
  | .ok (some b) =>
    let b1 := { b with total_clicks := b.total_clicks + 1 }
    let s1 := { s with instances := saveInstance s.instances b1 }
    match statsGetOrCreate s1.stats hour iid with
    | .error e => .error e
    | .ok (st, stats1) =>
      let st1 := { st with clicks := st.clicks + 1 }
      .ok { s1 with stats := saveStats stats1 st1 }

/-- Environment of effects used by `generate_banner_instance_image`:
`fetch` is `requests.get` on a URL (errors are `RequestException`
messages, the only exceptions the requests library raises for network
failures); `decode` is `Image.open` + `load` on bytes; the `settings`
values `FACEBOOK_CUSTOM_IMG_COORDS` and `FACEBOOK_CUSTOM_IMG_BORDER`. -/
structure FBEnv where
  fetch : String → Except String Bytes
  decode : Bytes → Except PILErr PILImage
  coords : Int × Int
  border_width : Int
  border_color : Nat

/-- Exceptions `generate_banner_instance_image` can let escape. -/
inductive TaskErr where
  | db (e : DBErr)
  | pil (e : PILErr)
deriving Repr, DecidableEq

/-- The two decodes of the task's second `try` block, in source order:
the fetched photo, then the banner template file. -/
def decodePair (env : FBEnv) (content tmpl : Bytes) :
    Except PILErr (PILImage × PILImage) :=
  match env.decode content with
  | .error e => .error e
  | .ok user_image =>
    match env.decode tmpl with
    | .error e => .error e
    | .ok banner_image => .ok (user_image, banner_image)

/-- The composite drawn on the success path: a copy of the template, a
filled border rectangle from `(x - w, y - w)` to `(x + 49 + w, y + 49 + w)`
inclusive, then the avatar pasted at `(x, y)`. -/
def compositeImage (env : FBEnv) (banner_image user_image : PILImage) :
    PILImage :=
  let x := env.coords.1
  let y := env.coords.2
  let w := env.border_width
  let bordered := rectangle banner_image.copy (x - w) (y - w)
    (x + 49 + w) (y + 49 + w) env.border_color
  paste bordered user_image x y

/-- The task `generate_banner_instance_image(banner_instance_id)`.

Returns the store and the list of `log.error` messages on a normal return;
`.error` is an exception escaping the task.  The photo fetch is guarded by
`except requests.exceptions.RequestException`; the decodes are guarded by
`except ValueError` only, so a PIL `IOError` propagates. -/
def generate_banner_instance_image (env : FBEnv) (iid : Nat) (s : FBStore) :
    Except TaskErr (FBStore × List String) :=
  match get_object_or_none s.instances (fun b => b.id == iid) with
  | .error e => .error (.db e)
  | .ok none => .ok (s, [])
  | .ok (some b) =>
    match env.fetch b.picture_url with
    | .error e =>
      .ok (s, ["Error downloading photo for user " ++ toString b.user_id
        ++ ": " ++ e])
    | .ok content =>
      match decodePair env content b.banner_image_file with
      | .error (.valueError m) =>
        .ok (s, ["Error loading images for banner instance " ++ toString b.id
          ++ ": " ++ m])
      | .error (.ioError m) => .error (.pil (.ioError m))
      | .ok (user_image, banner_image) =>
        let stored : StoredImage :=
          { name := "custom_image.png", format := .png,
            image := compositeImage env banner_image user_image }
        let b1 := { b with custom_image := some stored }
        .ok ({ s with instances := saveInstance s.instances b1 }, [])

/-! ### Concrete fixtures

Concrete environments and stores used to instantiate the theorems below on
closed inputs. -/

/-- A concrete effect environment for the registration workflow (digests
collapsed to constants, identity password hash, mail succeeding). -/
def envA : RegEnv :=
  { sha1 := fun _ => 0, hmacSha1 := fun _ _ => 0,
    hash_password := fun s => s, rand := "0.5", mailOk := true }

/-- `envA` with the mail send failing. -/
def envAFail : RegEnv :=
  { envA with mailOk := false }

/-- A second concrete environment with different digests. -/
def envB : RegEnv :=
  { sha1 := fun _ => 1, hmacSha1 := fun _ _ => 1,
    hash_password := fun s => s ++ "#", rand := "0.25", mailOk := true }

/-- The empty users store. -/
def emptyUsers : UsersStore := ⟨[], [], []⟩

/-- A pending registration whose activation key is `hexdigest 0`
(40 zeros), as `create_profile` under `envA` would leave it. -/
def rpFixture : RegisterProfile :=
  ⟨"a@example.com", "Ann", hexdigest 0, "secret1"⟩

/-- A users store holding exactly `rpFixture`. -/
def usersStoreA : UsersStore := ⟨[rpFixture], [], []⟩

/-- A concrete banner instance. -/
def bannerFixture : FacebookBannerInstance :=
  { id := 1, user_id := 7, picture_url := "http://example.com/p.jpg",
    banner_image_file := [3], total_clicks := 5, custom_image := none }

/-- A facebook store holding exactly `bannerFixture` and no stats rows. -/
def fbStoreA : FBStore := ⟨[bannerFixture], []⟩

/-- A concrete 50×50 avatar image. -/
def avatarFixture : PILImage := ⟨50, 50, fun _ _ => 9⟩

/-- A concrete banner template image. -/
def templateFixture : PILImage := ⟨200, 100, fun _ _ => 2⟩

/-- A compositor environment whose fetch and decodes succeed. -/
def fbEnvOk : FBEnv :=
  { fetch := fun _ => .ok [1],
    decode := fun bs => if bs == [1] then .ok avatarFixture else .ok templateFixture,
    coords := (20, 10), border_width := 3, border_color := 4 }

/-- `fbEnvOk` with the photo fetch raising a `RequestException`. -/
def fbEnvNetFail : FBEnv :=
  { fbEnvOk with fetch := fun _ => .error "connection refused" }

/-- `fbEnvOk` with decoding raising PIL's `IOError` (malformed or
truncated image data). -/
def fbEnvDecodeFail : FBEnv :=
  { fbEnvOk with decode := fun _ => .error (.ioError "cannot identify image file") }

/-! ## Proofs

### General list-store lemmas -/

theorem mem_of_filter_singleton {α : Type} {l : List α} {p : α → Bool} {x : α}
    (h : l.filter p = [x]) : x ∈ l ∧ p x = true := by
  have hx : x ∈ l.filter p := by
    rw [h]; exact List.mem_singleton.mpr rfl
  exact ⟨(List.mem_filter.mp hx).1, (List.mem_filter.mp hx).2⟩

theorem length_le_one_cases {α : Type} {l : List α} (h : l.length ≤ 1) :
    l = [] ∨ ∃ a, l = [a] := by
  match l, h with
  | [], _ => exact Or.inl rfl
  | [a], _ => exact Or.inr ⟨a, rfl⟩

theorem dbGet_of_filter_nil {α : Type} {l : List α} {p : α → Bool}
    (h : l.filter p = []) : dbGet l p = .error .doesNotExist := by
  simp [dbGet, h]

theorem dbGet_of_filter_singleton {α : Type} {l : List α} {p : α → Bool} {x : α}
    (h : l.filter p = [x]) : dbGet l p = .ok x := by
  simp [dbGet, h]

/-- Filtering for the matches of `p` among the rows `p` rejected finds
nothing: a deleted row cannot be fetched again. -/
theorem filter_not_self {α : Type} (l : List α) (p : α → Bool) :
    ((l.filter fun a => !(p a)).filter p) = [] := by
  induction l with
  | nil => rfl
  | cons a t ih =>
    by_cases hpa : p a = true
    · simp [List.filter_cons, hpa, ih]
    · simp only [Bool.not_eq_true] at hpa
      simp [List.filter_cons, hpa, ih]

/-- Deleting the rows matching `p` removes exactly the matches. -/
theorem length_filter_not_add {α : Type} (l : List α) (p : α → Bool) :
    (l.filter fun a => !(p a)).length + (l.filter p).length = l.length := by
  induction l with
  | nil => rfl
  | cons a t ih =>
    by_cases hpa : p a = true
    · simp [List.filter_cons, hpa]
      omega
    · simp only [Bool.not_eq_true] at hpa
      simp [List.filter_cons, hpa]
      omega

/-- A row update leaves a list with no `p` matches unchanged. -/
theorem map_update_noop {α : Type} {l : List α} {p : α → Bool}
    (h : ∀ a ∈ l, p a = false) (f : α → α) :
    (l.map fun q => if p q then f q else q) = l := by
  induction l with
  | nil => rfl
  | cons a t ih =>
    have ha := h a (List.mem_cons_self a t)
    simp only [List.map_cons, ha, if_false, List.cons.injEq, Bool.false_eq_true]
    exact ⟨by simp, ih fun x hx => h x (List.mem_cons_of_mem a hx)⟩

theorem filter_eq_nil_all {α : Type} {l : List α} {p : α → Bool}
    (h : l.filter p = []) : ∀ a ∈ l, p a = false := by
  intro a ha
  have := List.filter_eq_nil_iff.mp h a ha
  simpa using this

/-- Replacing the unique `p` match by a `p`-matching row `y` leaves `y` as
the unique `p` match. -/
theorem filter_singleton_map {α : Type} {l : List α} {p : α → Bool} {x : α}
    (h : l.filter p = [x]) (y : α) (hy : p y = true) :
    ((l.map fun q => if p q then y else q).filter p) = [y] := by
  induction l with
  | nil => simp at h
  | cons a t ih =>
    by_cases hpa : p a = true
    · rw [List.filter_cons_of_pos hpa] at h
      have hax : a = x ∧ t.filter p = [] := by
        constructor
        · exact (List.cons_eq_cons.mp h).1
        · exact (List.cons_eq_cons.mp h).2
      have hnoop := map_update_noop (filter_eq_nil_all hax.2) (fun _ => y)
      simp only [List.map_cons, hpa, if_true]
      rw [List.filter_cons_of_pos hy]
      have : (t.map fun q => if p q then y else q) = t := by
        simpa using hnoop
      rw [this, hax.2]
    · rw [List.filter_cons_of_neg (by simp [hpa])] at h
      simp only [List.map_cons, hpa, if_false, Bool.false_eq_true]
      rw [List.filter_cons_of_neg (by simp [hpa])]
      exact ih h

/-- Replacing the unique `p` match by an `r`-matching row `y`, in a list
whose rows all fail `r`, leaves `y` as the unique `r` match. -/
theorem filter_map_update_other {α : Type} {l : List α} {p r : α → Bool} {x : α}
    (hp : l.filter p = [x]) (y : α) (hry : r y = true)
    (hothers : ∀ a ∈ l, r a = false) :
    ((l.map fun q => if p q then y else q).filter r) = [y] := by
  induction l with
  | nil => simp at hp
  | cons a t ih =>
    by_cases hpa : p a = true
    · rw [List.filter_cons_of_pos hpa] at hp
      have hax : a = x ∧ t.filter p = [] := List.cons_eq_cons.mp hp
      have hnoop : (t.map fun q => if p q then y else q) = t := by
        simpa using map_update_noop (filter_eq_nil_all hax.2) (fun _ => y)
      simp only [List.map_cons, hpa, if_true]
      rw [List.filter_cons_of_pos hry, hnoop]
      have : t.filter r = [] := by
        apply List.filter_eq_nil_iff.mpr
        intro b hb
        simp [hothers b (List.mem_cons_of_mem a hb)]
      rw [this]
    · rw [List.filter_cons_of_neg (by simp [hpa])] at hp
      simp only [List.map_cons, hpa, if_false, Bool.false_eq_true]
      rw [List.filter_cons_of_neg
        (by simp [hothers a (List.mem_cons_self a t)])]
      exact ih hp fun b hb => hothers b (List.mem_cons_of_mem a hb)

/-- If every `q` match also matches `r`, deleting the `r` matches deletes
every `q` match. -/
theorem filter_sub_nil {α : Type} {l : List α} {q r : α → Bool}
    (h : ∀ a ∈ l, q a = true → r a = true) :
    ((l.filter fun a => !(r a)).filter q) = [] := by
  apply List.filter_eq_nil_iff.mpr
  intro a ha
  have hmem := List.mem_filter.mp ha
  intro hq
  have := h a hmem.1 (by simpa using hq)
  simp [this] at hmem

/-! ### Hex digest shape -/

theorem hexChar_isLowerHex : ∀ n, n < 16 → isLowerHexChar (hexChar n) = true := by
  decide

theorem hexdigest_data (d : Nat) :
    (hexdigest d).data = (List.range 40).map fun i => hexChar (d / 16 ^ (39 - i) % 16) :=
  rfl

theorem hexdigest_length (d : Nat) : (hexdigest d).length = 40 := by
  simp [hexdigest, String.length]

theorem sha1Match_hexdigest (d : Nat) : sha1Match (hexdigest d) = true := by
  have hlen : (hexdigest d).length = 40 := hexdigest_length d
  simp only [sha1Match, hlen, beq_self_eq_true, Bool.true_and]
  rw [List.all_eq_true]
  intro c hc
  rw [hexdigest_data, List.mem_map] at hc
  obtain ⟨i, _, rfl⟩ := hc
  exact hexChar_isLowerHex _ (Nat.mod_lt _ (by norm_num))

/-! ### Registration workflow characterizations -/

theorem create_profile_of_absent (env : RegEnv) (dn em pw : String)
    (s : UsersStore)
    (h : (s.regProfiles.filter fun p => p.email == em) = []) :
    create_profile env dn em pw s =
      ({ s with regProfiles := s.regProfiles ++ [newRegProfile env dn em pw] },
       if env.mailOk then .ok (newRegProfile env dn em pw)
       else .error .mailFailure) := by
  unfold create_profile newRegProfile
  rw [dbGet_of_filter_nil h]

theorem create_profile_of_present (env : RegEnv) (dn em pw : String)
    (s : UsersStore) (p0 : RegisterProfile)
    (h : (s.regProfiles.filter fun p => p.email == em) = [p0]) :
    create_profile env dn em pw s =
      ({ s with regProfiles := s.regProfiles.map fun q =>
          if q.email == em then
            { p0 with display_name := dn,
                      activation_key := activationKeyOf env em,
                      password := env.hash_password pw }
          else q },
       if env.mailOk then
         .ok { p0 with display_name := dn,
                       activation_key := activationKeyOf env em,
                       password := env.hash_password pw }
       else .error .mailFailure) := by
  unfold create_profile
  rw [dbGet_of_filter_singleton h]

/-- `create_profile` touches only the `RegisterProfile` table. -/
theorem create_profile_untouched (env : RegEnv) (dn em pw : String)
    (s : UsersStore) :
    (create_profile env dn em pw s).1.users = s.users ∧
    (create_profile env dn em pw s).1.userProfiles = s.userProfiles := by
  unfold create_profile
  cases hdb : dbGet s.regProfiles fun p => p.email == em with
  | ok p0 => exact ⟨rfl, rfl⟩
  | error e => cases e <;> exact ⟨rfl, rfl⟩

theorem create_profile_filter_absent (env : RegEnv) (dn em pw : String)
    (s : UsersStore)
    (h : (s.regProfiles.filter fun p => p.email == em) = []) :
    ((create_profile env dn em pw s).1.regProfiles.filter
        fun p => p.email == em) = [newRegProfile env dn em pw] ∧
    (create_profile env dn em pw s).1.regProfiles.length
      = s.regProfiles.length + 1 := by
  rw [create_profile_of_absent env dn em pw s h]
  refine ⟨?_, by simp⟩
  rw [List.filter_append, h]
  simp [newRegProfile]

theorem create_profile_filter_present (env : RegEnv) (dn em pw : String)
    (s : UsersStore) (p0 : RegisterProfile)
    (h : (s.regProfiles.filter fun p => p.email == em) = [p0]) :
    ((create_profile env dn em pw s).1.regProfiles.filter
        fun p => p.email == em) = [newRegProfile env dn em pw] ∧
    (create_profile env dn em pw s).1.regProfiles.length
      = s.regProfiles.length := by
  have hmem := mem_of_filter_singleton h
  have hem : p0.email = em := by simpa using hmem.2
  rw [create_profile_of_present env dn em pw s p0 h]
  refine ⟨?_, by simp⟩
  have hy : ({ p0 with
      display_name := dn,
      activation_key := activationKeyOf env em,
      password := env.hash_password pw } : RegisterProfile).email == em := by
    simp [hem]
  have := filter_singleton_map h _ hy
  rw [this]
  simp [newRegProfile, hem]

/-- After `create_profile`, the pending registration for the signup email
is exactly the freshly written row (given the unique-email constraint on
the prior store). -/
theorem create_profile_filter (env : RegEnv) (dn em pw : String)
    (s : UsersStore)
    (h : (s.regProfiles.filter fun p => p.email == em).length ≤ 1) :
    ((create_profile env dn em pw s).1.regProfiles.filter
        fun p => p.email == em) = [newRegProfile env dn em pw] := by
  rcases length_le_one_cases h with h0 | ⟨p0, h0⟩
  · exact (create_profile_filter_absent env dn em pw s h0).1
  · exact (create_profile_filter_present env dn em pw s p0 h0).1

theorem activate_profile_of_invalid (env : RegEnv) (key : String)
    (s : UsersStore)
    (h : sha1Match key = false ∨
      (s.regProfiles.filter fun p => p.activation_key == key) = []) :
    activate_profile env key s = .ok (none, s) := by
  rcases h with h | h
  · simp [activate_profile, get_by_key, h]
  · unfold activate_profile get_by_key
    by_cases hm : sha1Match key
    · rw [if_pos hm, dbGet_of_filter_nil h]
    · rw [if_neg hm]

theorem activate_profile_of_valid (env : RegEnv) (key : String)
    (s : UsersStore) (rp : RegisterProfile)
    (hm : sha1Match key = true)
    (h : (s.regProfiles.filter fun p => p.activation_key == key) = [rp]) :
    activate_profile env key s =
      .ok (some (activatedUser env rp),
        { regProfiles := s.regProfiles.filter fun p => !(p.activation_key == key),
          users := s.users ++ [activatedUser env rp],
          userProfiles := s.userProfiles
            ++ [⟨activatedUser env rp, rp.display_name⟩] }) := by
  unfold activate_profile get_by_key
  rw [if_pos hm, dbGet_of_filter_singleton h]

/-! ### Claims about the registration workflow -/

/-- C1: `activate_profile` is a partial function on keys: a key that does
not match `SHA1_RE` or matches no stored `activation_key` yields `none`
with the store unchanged; a well-formed key with exactly one match yields
the new `User`, appends exactly one `User` and one `UserProfile`, and
deletes exactly the matching pending `RegisterProfile`. -/
theorem activate_profile_partial_fun (env : RegEnv) (key : String)
    (s : UsersStore) :
    (sha1Match key = false ∨
        (s.regProfiles.filter fun p => p.activation_key == key) = [] →
      activate_profile env key s = .ok (none, s)) ∧
    (∀ rp, sha1Match key = true →
      (s.regProfiles.filter fun p => p.activation_key == key) = [rp] →
      activate_profile env key s =
        .ok (some (activatedUser env rp),
          { regProfiles :=
              s.regProfiles.filter fun p => !(p.activation_key == key),
            users := s.users ++ [activatedUser env rp],
            userProfiles := s.userProfiles
              ++ [⟨activatedUser env rp, rp.display_name⟩] }) ∧
      (s.regProfiles.filter fun p => !(p.activation_key == key)).length + 1
        = s.regProfiles.length) := by
  constructor
  · exact activate_profile_of_invalid env key s
  · intro rp hm hf
    refine ⟨activate_profile_of_valid env key s rp hm hf, ?_⟩
    have := length_filter_not_add s.regProfiles fun p => p.activation_key == key
    rw [hf] at this
    simpa using this

theorem activate_profile_partial_fun_witness :
    activate_profile envA "xyz" usersStoreA = .ok (none, usersStoreA) ∧
    (activate_profile envA (hexdigest 0) usersStoreA =
      .ok (some (activatedUser envA rpFixture),
        { regProfiles := usersStoreA.regProfiles.filter
            fun p => !(p.activation_key == hexdigest 0),
          users := usersStoreA.users ++ [activatedUser envA rpFixture],
          userProfiles := usersStoreA.userProfiles
            ++ [⟨activatedUser envA rpFixture, rpFixture.display_name⟩] }) ∧
      (usersStoreA.regProfiles.filter
        fun p => !(p.activation_key == hexdigest 0)).length + 1
        = usersStoreA.regProfiles.length) :=
  ⟨(activate_profile_partial_fun envA "xyz" usersStoreA).1 (Or.inl (by decide)),
   (activate_profile_partial_fun envA (hexdigest 0) usersStoreA).2 rpFixture
     (by decide) (by decide)⟩

/-- C2: the activation token is single-use: after a successful activation
the pending registration is gone, so a second `activate_profile` with the
same key returns `none` and changes nothing. -/
theorem activate_profile_single_use (env : RegEnv) (key : String)
    (s : UsersStore) (rp : RegisterProfile)
    (hm : sha1Match key = true)
    (hf : (s.regProfiles.filter fun p => p.activation_key == key) = [rp]) :
    ∃ u s1, activate_profile env key s = .ok (some u, s1) ∧
      activate_profile env key s1 = .ok (none, s1) := by
  refine ⟨activatedUser env rp, _,
    activate_profile_of_valid env key s rp hm hf, ?_⟩
  exact activate_profile_of_invalid env key _
    (Or.inr (filter_not_self s.regProfiles fun p => p.activation_key == key))

theorem activate_profile_single_use_witness :
    sha1Match (hexdigest 0) = true ∧
    (usersStoreA.regProfiles.filter
      fun p => p.activation_key == hexdigest 0) = [rpFixture] ∧
    ∃ u s1, activate_profile envA (hexdigest 0) usersStoreA = .ok (some u, s1) ∧
      activate_profile envA (hexdigest 0) s1 = .ok (none, s1) :=
  ⟨by decide, by decide,
   activate_profile_single_use envA (hexdigest 0) usersStoreA rpFixture
     (by decide) (by decide)⟩

/-- C3: `create_profile` upserts the pending registration keyed by email:
after a call exactly one pending `RegisterProfile` for that email exists,
carrying the new display name, activation key and hashed password, and a
repeat call for the same email replaces that row without adding one. -/
theorem create_profile_upsert (env env2 : RegEnv)
    (dn pw dn2 pw2 em : String) (s : UsersStore)
    (h : (s.regProfiles.filter fun p => p.email == em).length ≤ 1) :
    ((create_profile env dn em pw s).1.regProfiles.filter
        fun p => p.email == em) = [newRegProfile env dn em pw] ∧
    ((create_profile env2 dn2 em pw2
        (create_profile env dn em pw s).1).1.regProfiles.filter
        fun p => p.email == em) = [newRegProfile env2 dn2 em pw2] ∧
    (create_profile env2 dn2 em pw2
        (create_profile env dn em pw s).1).1.regProfiles.length
      = (create_profile env dn em pw s).1.regProfiles.length := by
  have h1 := create_profile_filter env dn em pw s h
  exact ⟨h1, (create_profile_filter_present env2 dn2 em pw2 _ _ h1).1,
    (create_profile_filter_present env2 dn2 em pw2 _ _ h1).2⟩

theorem create_profile_upsert_witness :
    (emptyUsers.regProfiles.filter
      fun p => p.email == "a@example.com").length ≤ 1 ∧
    (((create_profile envA "Ann" "a@example.com" "secret1"
          emptyUsers).1.regProfiles.filter
        fun p => p.email == "a@example.com")
      = [newRegProfile envA "Ann" "a@example.com" "secret1"] ∧
    ((create_profile envB "Bea" "a@example.com" "pw2"
        (create_profile envA "Ann" "a@example.com" "secret1"
          emptyUsers).1).1.regProfiles.filter
        fun p => p.email == "a@example.com")
      = [newRegProfile envB "Bea" "a@example.com" "pw2"] ∧
    (create_profile envB "Bea" "a@example.com" "pw2"
        (create_profile envA "Ann" "a@example.com" "secret1"
          emptyUsers).1).1.regProfiles.length
      = (create_profile envA "Ann" "a@example.com" "secret1"
          emptyUsers).1.regProfiles.length) :=
  ⟨by decide,
   create_profile_upsert envA envB "Ann" "secret1" "Bea" "pw2" "a@example.com"
     emptyUsers (by decide)⟩

/-- C9: when the activation-email send raises, `create_profile` propagates
the exception, and the pending registration — saved before the send —
remains in the store. -/
theorem create_profile_mail_failure (env : RegEnv) (dn em pw : String)
    (s : UsersStore)
    (hmail : env.mailOk = false)
    (h : (s.regProfiles.filter fun p => p.email == em).length ≤ 1) :
    (create_profile env dn em pw s).2 = .error .mailFailure ∧
    ((create_profile env dn em pw s).1.regProfiles.filter
        fun p => p.email == em) = [newRegProfile env dn em pw] := by
  refine ⟨?_, create_profile_filter env dn em pw s h⟩
  rcases length_le_one_cases h with h0 | ⟨p0, h0⟩
  · rw [create_profile_of_absent env dn em pw s h0]
    simp [hmail]
  · rw [create_profile_of_present env dn em pw s p0 h0]
    simp [hmail]

theorem create_profile_mail_failure_witness :
    envAFail.mailOk = false ∧
    (emptyUsers.regProfiles.filter
      fun p => p.email == "a@example.com").length ≤ 1 ∧
    ((create_profile envAFail "Ann" "a@example.com" "secret1"
        emptyUsers).2 = .error .mailFailure ∧
    ((create_profile envAFail "Ann" "a@example.com" "secret1"
        emptyUsers).1.regProfiles.filter
        fun p => p.email == "a@example.com")
      = [newRegProfile envAFail "Ann" "a@example.com" "secret1"]) :=
  ⟨rfl, by decide,
   create_profile_mail_failure envAFail "Ann" "a@example.com" "secret1"
     emptyUsers rfl (by decide)⟩

/-- The row written by `create_profile` is the unique holder of the fresh
activation key, provided no prior row held it. -/
theorem create_profile_filter_key (env : RegEnv) (dn em pw : String)
    (s : UsersStore)
    (h1 : (s.regProfiles.filter fun p => p.email == em).length ≤ 1)
    (h2 : ∀ p ∈ s.regProfiles,
      (p.activation_key == activationKeyOf env em) = false) :
    ((create_profile env dn em pw s).1.regProfiles.filter
        fun p => p.activation_key == activationKeyOf env em)
      = [newRegProfile env dn em pw] := by
  rcases length_le_one_cases h1 with h0 | ⟨p0, h0⟩
  · rw [create_profile_of_absent env dn em pw s h0]
    have hnil : (s.regProfiles.filter
        fun p => p.activation_key == activationKeyOf env em) = [] := by
      apply List.filter_eq_nil_iff.mpr
      intro p hp
      simp [h2 p hp]
    simp only [List.filter_append, hnil, List.nil_append]
    simp [newRegProfile]
  · rw [create_profile_of_present env dn em pw s p0 h0]
    have hmem := mem_of_filter_singleton h0
    have hem : p0.email = em := by simpa using hmem.2
    have hy : (({ p0 with
        display_name := dn,
        activation_key := activationKeyOf env em,
        password := env.hash_password pw } : RegisterProfile).activation_key
          == activationKeyOf env em) = true := by simp
    have := filter_map_update_other h0 _ hy h2
    rw [this]
    simp [newRegProfile, hem]

/-- C8: signup/activation round trip: `create_profile` returns a pending
registration whose activation key is a 40-character lowercase-hex token,
and activating exactly that key yields a new active `User` with the signup
email and hashed password, a `UserProfile` with the signup display name,
and no pending registration left for that email. -/
theorem signup_activation_round_trip (env : RegEnv) (dn em pw : String)
    (s : UsersStore)
    (hmail : env.mailOk = true)
    (h1 : (s.regProfiles.filter fun p => p.email == em).length ≤ 1)
    (h2 : ∀ p ∈ s.regProfiles,
      (p.activation_key == activationKeyOf env em) = false) :
    sha1Match (activationKeyOf env em) = true ∧
    (activationKeyOf env em).length = 40 ∧
    (activationKeyOf env em).data.all isLowerHexChar = true ∧
    (create_profile env dn em pw s).2 = .ok (newRegProfile env dn em pw) ∧
    (newRegProfile env dn em pw).activation_key = activationKeyOf env em ∧
    ∃ u s2, activate_profile env (activationKeyOf env em)
        (create_profile env dn em pw s).1 = .ok (some u, s2) ∧
      u.email = em ∧ u.password = env.hash_password pw ∧ u.is_active = true ∧
      s2.users = s.users ++ [u] ∧
      s2.userProfiles = s.userProfiles ++ [⟨u, dn⟩] ∧
      (s2.regProfiles.filter fun p => p.email == em) = [] := by
  have hkey : activationKeyOf env em
      = hexdigest (env.hmacSha1 ((hexdigest (env.sha1 env.rand)).take 5) em) :=
    rfl
  have hm : sha1Match (activationKeyOf env em) = true := by
    rw [hkey]; exact sha1Match_hexdigest _
  have hall : (activationKeyOf env em).data.all isLowerHexChar = true := by
    have := hm
    rw [sha1Match, Bool.and_eq_true] at this
    exact this.2
  have hret : (create_profile env dn em pw s).2
      = .ok (newRegProfile env dn em pw) := by
    rcases length_le_one_cases h1 with h0 | ⟨p0, h0⟩
    · rw [create_profile_of_absent env dn em pw s h0]
      simp [hmail]
    · rw [create_profile_of_present env dn em pw s p0 h0]
      have hem : p0.email = em := by
        simpa using (mem_of_filter_singleton h0).2
      simp [hmail, newRegProfile, hem]
  have hfk := create_profile_filter_key env dn em pw s h1 h2
  have hfe := create_profile_filter env dn em pw s h1
  have huntouched := create_profile_untouched env dn em pw s
  refine ⟨hm, by rw [hkey]; exact hexdigest_length _, hall, hret, rfl,
    activatedUser env (newRegProfile env dn em pw), _,
    activate_profile_of_valid env (activationKeyOf env em) _ _ hm hfk,
    rfl, rfl, rfl, by rw [huntouched.1], by simp [huntouched.2, newRegProfile], ?_⟩
  apply filter_sub_nil
  intro a ha hq
  have : a ∈ (create_profile env dn em pw s).1.regProfiles.filter
      fun p => p.email == em := List.mem_filter.mpr ⟨ha, hq⟩
  rw [hfe] at this
  have haeq : a = newRegProfile env dn em pw := by simpa using this
  rw [haeq]
  simp [newRegProfile]

theorem signup_activation_round_trip_witness :
    envA.mailOk = true ∧
    (emptyUsers.regProfiles.filter
      fun p => p.email == "a@example.com").length ≤ 1 ∧
    (∀ p ∈ emptyUsers.regProfiles,
      (p.activation_key == activationKeyOf envA "a@example.com") = false) ∧
    (sha1Match (activationKeyOf envA "a@example.com") = true ∧
    (activationKeyOf envA "a@example.com").length = 40 ∧
    (activationKeyOf envA "a@example.com").data.all isLowerHexChar = true ∧
    (create_profile envA "Ann" "a@example.com" "secret1" emptyUsers).2
      = .ok (newRegProfile envA "Ann" "a@example.com" "secret1") ∧
    (newRegProfile envA "Ann" "a@example.com" "secret1").activation_key
      = activationKeyOf envA "a@example.com" ∧
    ∃ u s2, activate_profile envA (activationKeyOf envA "a@example.com")
        (create_profile envA "Ann" "a@example.com" "secret1" emptyUsers).1
        = .ok (some u, s2) ∧
      u.email = "a@example.com" ∧
      u.password = envA.hash_password "secret1" ∧ u.is_active = true ∧
      s2.users = emptyUsers.users ++ [u] ∧
      s2.userProfiles = emptyUsers.userProfiles ++ [⟨u, "Ann"⟩] ∧
      (s2.regProfiles.filter fun p => p.email == "a@example.com") = []) :=
  ⟨rfl, by decide, by decide,
   signup_activation_round_trip envA "Ann" "a@example.com" "secret1"
     emptyUsers rfl (by decide) (by decide)⟩

/-! ### Click-tracking characterizations -/

theorem get_object_or_none_of_nil {α : Type} {l : List α} {p : α → Bool}
    (h : l.filter p = []) : get_object_or_none l p = .ok none := by
  simp [get_object_or_none, dbGet_of_filter_nil h]

theorem get_object_or_none_of_singleton {α : Type} {l : List α} {p : α → Bool}
    {x : α} (h : l.filter p = [x]) : get_object_or_none l p = .ok (some x) := by
  simp [get_object_or_none, dbGet_of_filter_singleton h]

theorem statsGetOrCreate_of_nil {l : List FacebookClickStats} {hour iid : Nat}
    (h : l.filter (statsKey hour iid) = []) :
    statsGetOrCreate l hour iid = .ok (⟨hour, iid, 0⟩, l ++ [⟨hour, iid, 0⟩]) := by
  simp [statsGetOrCreate, dbGet_of_filter_nil h]

theorem statsGetOrCreate_of_singleton {l : List FacebookClickStats}
    {hour iid : Nat} {st : FacebookClickStats}
    (h : l.filter (statsKey hour iid) = [st]) :
    statsGetOrCreate l hour iid = .ok (st, l) := by
  simp [statsGetOrCreate, dbGet_of_filter_singleton h]

theorem add_click_of_unknown (hour iid : Nat) (s : FBStore)
    (h : (s.instances.filter fun x => x.id == iid) = []) :
    add_click hour iid s = .ok s := by
  simp only [add_click, get_object_or_none_of_nil h]

/-- Saving an updated bucket row into a store whose other rows are in
other buckets rewrites just the appended row. -/
theorem saveStats_fresh (l : List FacebookClickStats) (hour iid c k : Nat)
    (h : l.filter (statsKey hour iid) = []) :
    saveStats (l ++ [⟨hour, iid, c⟩]) ⟨hour, iid, k⟩ = l ++ [⟨hour, iid, k⟩] := by
  show (l ++ [(⟨hour, iid, c⟩ : FacebookClickStats)]).map
      (fun x => if statsKey hour iid x then (⟨hour, iid, k⟩ : FacebookClickStats) else x)
      = l ++ [(⟨hour, iid, k⟩ : FacebookClickStats)]
  rw [List.map_append]
  have h1 : (l.map fun x =>
      if statsKey hour iid x then (⟨hour, iid, k⟩ : FacebookClickStats) else x)
      = l := by
    simpa using map_update_noop (filter_eq_nil_all h)
      fun _ => (⟨hour, iid, k⟩ : FacebookClickStats)
  rw [h1]
  simp [statsKey]

/-- Saving the bumped instance row keeps it the unique row with its id. -/
theorem filter_saveInstance_singleton (l : List FacebookBannerInstance)
    (iid : Nat) (b y : FacebookBannerInstance)
    (hb : (l.filter fun x => x.id == iid) = [b]) (hy : y.id = b.id) :
    ((saveInstance l y).filter fun x => x.id == iid) = [y] := by
  have hbid : b.id = iid := by
    simpa using (mem_of_filter_singleton hb).2
  have hyid : (y.id == iid) = true := by simp [hy, hbid]
  unfold saveInstance
  simp only [hy, hbid]
  exact filter_singleton_map hb y hyid

/-- First click of the hour: the bucket row is created and saved with
count 1. -/
theorem add_click_of_known_new (hour iid : Nat) (s : FBStore)
    (b : FacebookBannerInstance)
    (hb : (s.instances.filter fun x => x.id == iid) = [b])
    (hst : s.stats.filter (statsKey hour iid) = []) :
    add_click hour iid s =
      .ok ⟨saveInstance s.instances { b with total_clicks := b.total_clicks + 1 },
        s.stats ++ [⟨hour, iid, 1⟩]⟩ := by
  simp only [add_click, get_object_or_none_of_singleton hb,
    statsGetOrCreate_of_nil hst]
  show (Except.ok (⟨saveInstance s.instances
      { b with total_clicks := b.total_clicks + 1 },
    saveStats (s.stats ++ [(⟨hour, iid, 0⟩ : FacebookClickStats)])
      (⟨hour, iid, 1⟩ : FacebookClickStats)⟩ : FBStore) : Except DBErr FBStore)
    = Except.ok (⟨saveInstance s.instances
      { b with total_clicks := b.total_clicks + 1 },
      s.stats ++ [(⟨hour, iid, 1⟩ : FacebookClickStats)]⟩ : FBStore)
  rw [saveStats_fresh s.stats hour iid 0 1 hst]

/-- A later click of the hour: the existing bucket row is saved with its
count bumped by 1. -/
theorem add_click_of_known_existing (hour iid : Nat) (s : FBStore)
    (b : FacebookBannerInstance) (st : FacebookClickStats)
    (hb : (s.instances.filter fun x => x.id == iid) = [b])
    (hst : s.stats.filter (statsKey hour iid) = [st]) :
    add_click hour iid s =
      .ok ⟨saveInstance s.instances { b with total_clicks := b.total_clicks + 1 },
        saveStats s.stats { st with clicks := st.clicks + 1 }⟩ := by
  simp only [add_click, get_object_or_none_of_singleton hb,
    statsGetOrCreate_of_singleton hst]

/-- C4: `add_click` on an id matching no instance performs zero writes;
on the unique matching instance it saves that row with `total_clicks`
bumped by exactly 1 and saves the current-hour bucket bumped by exactly 1,
creating it with count 1 when no row for `(hour, instance)` exists. -/
theorem add_click_spec (hour iid : Nat) (s : FBStore) :
    ((s.instances.filter fun x => x.id == iid) = [] →
      add_click hour iid s = .ok s) ∧
    (∀ b, (s.instances.filter fun x => x.id == iid) = [b] →
      (s.stats.filter (statsKey hour iid) = [] →
        add_click hour iid s = .ok ⟨saveInstance s.instances
          { b with total_clicks := b.total_clicks + 1 },
          s.stats ++ [⟨hour, iid, 1⟩]⟩) ∧
      (∀ st, s.stats.filter (statsKey hour iid) = [st] →
        add_click hour iid s = .ok ⟨saveInstance s.instances
          { b with total_clicks := b.total_clicks + 1 },
          saveStats s.stats { st with clicks := st.clicks + 1 }⟩)) :=
  ⟨add_click_of_unknown hour iid s,
   fun b hb =>
     ⟨add_click_of_known_new hour iid s b hb,
      fun st hst => add_click_of_known_existing hour iid s b st hb hst⟩⟩

theorem add_click_spec_witness :
    add_click 12 2 fbStoreA = .ok fbStoreA ∧
    add_click 12 1 fbStoreA = .ok ⟨saveInstance fbStoreA.instances
      { bannerFixture with total_clicks := bannerFixture.total_clicks + 1 },
      fbStoreA.stats ++ [⟨12, 1, 1⟩]⟩ :=
  ⟨(add_click_spec 12 2 fbStoreA).1 rfl,
   ((add_click_spec 12 1 fbStoreA).2 bannerFixture rfl).1 rfl⟩

/-- C5: at most one stats row per hour bucket: two sequential clicks in
the same hour leave exactly one `(hour, instance)` aggregate row, with
count 2, one row more than before — not two rows. -/
theorem click_stats_single_row (hour iid : Nat) (s : FBStore)
    (b : FacebookBannerInstance)
    (hb : (s.instances.filter fun x => x.id == iid) = [b])
    (hst : s.stats.filter (statsKey hour iid) = []) :
    ∃ s1 s2, add_click hour iid s = .ok s1 ∧ add_click hour iid s1 = .ok s2 ∧
      s2.stats.filter (statsKey hour iid) = [⟨hour, iid, 2⟩] ∧
      s2.stats.length = s.stats.length + 1 := by
  have h1 := add_click_of_known_new hour iid s b hb hst
  have hb1 : (((saveInstance s.instances
      { b with total_clicks := b.total_clicks + 1 }) : List _).filter
        fun x => x.id == iid)
      = [{ b with total_clicks := b.total_clicks + 1 }] :=
    filter_saveInstance_singleton s.instances iid b _ hb rfl
  have hst1 : ((s.stats ++ [(⟨hour, iid, 1⟩ : FacebookClickStats)]).filter
      (statsKey hour iid)) = [(⟨hour, iid, 1⟩ : FacebookClickStats)] := by
    rw [List.filter_append, hst]
    simp [statsKey]
  have h2 := add_click_of_known_existing hour iid
    (⟨saveInstance s.instances { b with total_clicks := b.total_clicks + 1 },
      s.stats ++ [(⟨hour, iid, 1⟩ : FacebookClickStats)]⟩ : FBStore)
    { b with total_clicks := b.total_clicks + 1 }
    (⟨hour, iid, 1⟩ : FacebookClickStats) hb1 hst1
  refine ⟨_, _, h1, h2, ?_, ?_⟩
  · show ((saveStats (s.stats ++ [(⟨hour, iid, 1⟩ : FacebookClickStats)])
      (⟨hour, iid, 2⟩ : FacebookClickStats)).filter (statsKey hour iid))
      = [(⟨hour, iid, 2⟩ : FacebookClickStats)]
    rw [saveStats_fresh s.stats hour iid 1 2 hst]
    rw [List.filter_append, hst]
    simp [statsKey]
  · show (saveStats (s.stats ++ [(⟨hour, iid, 1⟩ : FacebookClickStats)])
      (⟨hour, iid, 2⟩ : FacebookClickStats)).length = s.stats.length + 1
    rw [saveStats_fresh s.stats hour iid 1 2 hst]
    simp

theorem click_stats_single_row_witness :
    (fbStoreA.instances.filter fun x => x.id == 1) = [bannerFixture] ∧
    fbStoreA.stats.filter (statsKey 12 1) = [] ∧
    ∃ s1 s2, add_click 12 1 fbStoreA = .ok s1 ∧ add_click 12 1 s1 = .ok s2 ∧
      s2.stats.filter (statsKey 12 1) = [⟨12, 1, 2⟩] ∧
      s2.stats.length = fbStoreA.stats.length + 1 :=
  ⟨rfl, rfl, click_stats_single_row 12 1 fbStoreA bannerFixture rfl rfl⟩

/-! ### Banner compositor claims -/

/-- C7: a network error during the photo fetch is caught: the task logs
the error, returns normally, and leaves the store — and hence the
instance's unset composite image — untouched. -/
theorem generate_network_error (env : FBEnv) (iid : Nat) (s : FBStore)
    (b : FacebookBannerInstance) (e : String)
    (hb : (s.instances.filter fun x => x.id == iid) = [b])
    (hfetch : env.fetch b.picture_url = .error e)
    (hunset : b.custom_image = none) :
    generate_banner_instance_image env iid s =
      .ok (s, ["Error downloading photo for user " ++ toString b.user_id
        ++ ": " ++ e]) ∧
    ∀ x ∈ s.instances, (x.id == iid) = true → x.custom_image = none := by
  constructor
  · simp only [generate_banner_instance_image,
      get_object_or_none_of_singleton hb, hfetch]
  · intro x hx hxid
    have hmem : x ∈ s.instances.filter fun y => y.id == iid :=
      List.mem_filter.mpr ⟨hx, hxid⟩
    rw [hb] at hmem
    rw [List.mem_singleton.mp hmem]
    exact hunset

theorem generate_network_error_witness :
    (fbStoreA.instances.filter fun x => x.id == 1) = [bannerFixture] ∧
    fbEnvNetFail.fetch bannerFixture.picture_url = .error "connection refused" ∧
    bannerFixture.custom_image = none ∧
    (generate_banner_instance_image fbEnvNetFail 1 fbStoreA =
      .ok (fbStoreA, ["Error downloading photo for user "
        ++ toString bannerFixture.user_id ++ ": " ++ "connection refused"]) ∧
    ∀ x ∈ fbStoreA.instances, (x.id == 1) = true → x.custom_image = none) :=
  ⟨rfl, rfl, rfl,
   generate_network_error fbEnvNetFail 1 fbStoreA bannerFixture
     "connection refused" rfl rfl rfl⟩

/-- C6 (failing input): when decoding the fetched photo raises PIL's
`IOError` — its documented signal for malformed or truncated image data —
the `except ValueError` clause does not catch it, and the exception
escapes `generate_banner_instance_image` instead of being logged. -/
theorem generate_decode_ioerror_raises :
    generate_banner_instance_image fbEnvDecodeFail 1 fbStoreA
      = .error (.pil (.ioError "cannot identify image file")) := rfl

/-- The composite's pixel map, written out: the paste region test, then
the border rectangle test, then the template. -/
theorem compositeImage_px_eq (env : FBEnv) (banner_image user_image : PILImage)
    (a c : Int) :
    (compositeImage env banner_image user_image).px a c =
      if env.coords.1 ≤ a ∧ a < env.coords.1 + (user_image.width : Int) ∧
         env.coords.2 ≤ c ∧ c < env.coords.2 + (user_image.height : Int) then
        user_image.px (a - env.coords.1) (c - env.coords.2)
      else if env.coords.1 - env.border_width ≤ a ∧
          a ≤ env.coords.1 + 49 + env.border_width ∧
          env.coords.2 - env.border_width ≤ c ∧
          c ≤ env.coords.2 + 49 + env.border_width then
        env.border_color
      else
        banner_image.px a c := rfl

/-- Pixelwise reading of the composite for a 50×50 avatar: avatar pixels
inside the 50×50 region at the configured coordinates, border color on the
rest of the border box (the avatar region expanded by the border width on
every side), template pixels elsewhere. -/
theorem compositeImage_px_cases (env : FBEnv)
    (banner_image user_image : PILImage)
    (hw : user_image.width = 50) (hh : user_image.height = 50)
    (hbw : 0 ≤ env.border_width) (a c : Int) :
    (env.coords.1 ≤ a ∧ a ≤ env.coords.1 + 49 ∧
     env.coords.2 ≤ c ∧ c ≤ env.coords.2 + 49 →
      (compositeImage env banner_image user_image).px a c
        = user_image.px (a - env.coords.1) (c - env.coords.2)) ∧
    (¬(env.coords.1 ≤ a ∧ a ≤ env.coords.1 + 49 ∧
       env.coords.2 ≤ c ∧ c ≤ env.coords.2 + 49) ∧
     env.coords.1 - env.border_width ≤ a ∧
     a ≤ env.coords.1 + 49 + env.border_width ∧
     env.coords.2 - env.border_width ≤ c ∧
     c ≤ env.coords.2 + 49 + env.border_width →
      (compositeImage env banner_image user_image).px a c
        = env.border_color) ∧
    (¬(env.coords.1 - env.border_width ≤ a ∧
       a ≤ env.coords.1 + 49 + env.border_width ∧
       env.coords.2 - env.border_width ≤ c ∧
       c ≤ env.coords.2 + 49 + env.border_width) →
      (compositeImage env banner_image user_image).px a c
        = banner_image.px a c) := by
  have hw50 : (user_image.width : Int) = 50 := by rw [hw]; rfl
  have hh50 : (user_image.height : Int) = 50 := by rw [hh]; rfl
  rw [compositeImage_px_eq]
  refine ⟨fun h => ?_, fun h => ?_, fun h => ?_⟩
  · rw [if_pos]
    refine ⟨h.1, ?_, h.2.2.1, ?_⟩ <;> omega
  · rw [if_neg, if_pos]
    · exact h.2
    · intro hc
      exact h.1 ⟨hc.1, by omega, hc.2.2.1, by omega⟩
  · rw [if_neg, if_neg h]
    intro hc
    exact h ⟨by omega, by omega, by omega, by omega⟩

/-- C10: on the success path the task saves, as the instance's composite
image, a PNG file named `custom_image.png` holding a copy of the template
with a filled border rectangle spanning the 50×50 avatar region expanded
by the border width on every side, and the avatar pasted unresized at the
configured coordinates, overwriting pixels. -/
theorem generate_success_composite (env : FBEnv) (iid : Nat) (s : FBStore)
    (b : FacebookBannerInstance) (content : Bytes)
    (user_image banner_image : PILImage)
    (hb : (s.instances.filter fun x => x.id == iid) = [b])
    (hfetch : env.fetch b.picture_url = .ok content)
    (hdecu : env.decode content = .ok user_image)
    (hdecb : env.decode b.banner_image_file = .ok banner_image)
    (hw : user_image.width = 50) (hh : user_image.height = 50)
    (hbw : 0 ≤ env.border_width) :
    generate_banner_instance_image env iid s =
      .ok ({ s with
          instances := saveInstance s.instances
            { b with custom_image := some ⟨"custom_image.png", .png,
                compositeImage env banner_image user_image⟩ } }, []) ∧
    ∀ a c : Int,
      (env.coords.1 ≤ a ∧ a ≤ env.coords.1 + 49 ∧
       env.coords.2 ≤ c ∧ c ≤ env.coords.2 + 49 →
        (compositeImage env banner_image user_image).px a c
          = user_image.px (a - env.coords.1) (c - env.coords.2)) ∧
      (¬(env.coords.1 ≤ a ∧ a ≤ env.coords.1 + 49 ∧
         env.coords.2 ≤ c ∧ c ≤ env.coords.2 + 49) ∧
       env.coords.1 - env.border_width ≤ a ∧
       a ≤ env.coords.1 + 49 + env.border_width ∧
       env.coords.2 - env.border_width ≤ c ∧
       c ≤ env.coords.2 + 49 + env.border_width →
        (compositeImage env banner_image user_image).px a c
          = env.border_color) ∧
      (¬(env.coords.1 - env.border_width ≤ a ∧
         a ≤ env.coords.1 + 49 + env.border_width ∧
         env.coords.2 - env.border_width ≤ c ∧
         c ≤ env.coords.2 + 49 + env.border_width) →
        (compositeImage env banner_image user_image).px a c
          = banner_image.px a c) := by
  constructor
  · simp only [generate_banner_instance_image,
      get_object_or_none_of_singleton hb, hfetch, decodePair, hdecu, hdecb]
  · exact fun a c =>
      compositeImage_px_cases env banner_image user_image hw hh hbw a c

theorem generate_success_composite_witness :
    (fbStoreA.instances.filter fun x => x.id == 1) = [bannerFixture] ∧
    fbEnvOk.fetch bannerFixture.picture_url = .ok [1] ∧
    fbEnvOk.decode [1] = .ok avatarFixture ∧
    fbEnvOk.decode bannerFixture.banner_image_file = .ok templateFixture ∧
    avatarFixture.width = 50 ∧ avatarFixture.height = 50 ∧
    0 ≤ fbEnvOk.border_width ∧
    generate_banner_instance_image fbEnvOk 1 fbStoreA =
      .ok ({ fbStoreA with
          instances := saveInstance fbStoreA.instances
            { bannerFixture with
              custom_image := some ⟨"custom_image.png", .png,
                compositeImage fbEnvOk templateFixture avatarFixture⟩ } }, []) :=
  ⟨rfl, rfl, rfl, rfl, rfl, rfl, by decide,
   (generate_success_composite fbEnvOk 1 fbStoreA bannerFixture [1]
     avatarFixture templateFixture rfl rfl rfl rfl rfl rfl (by decide)).1⟩

end Affiliates
